import Mathlib

/-!
A shallow embedding of the snowpack remote-CDN dependency resolution and
caching subsystem (skypack/src/index.ts, the earlier snowpack variant of the
same module, and the freshness-aware fetchCDN read path), together with
theorems checking the natural-language specification against it.

JavaScript strings that may be `undefined` are modelled as `Option String`
(`none` is `undefined`).  Effectful functions are modelled by explicit state
passing: the state carries the persistent resource cache, the in-memory
response memo, and a log of the network requests issued; the network itself
is an oracle mapping (request index, url) to a response, so a server whose
answers change between calls is expressible.
-/

deriving instance DecidableEq for Except

namespace Snowpack

/-- JS string-or-undefined: `none` models `undefined`. -/
abbrev JSString := Option String

/-- Interpolating a possibly-undefined JS value into a template literal:
`undefined` prints as the string "undefined". -/
def jsTemplate : JSString → String
  | none => "undefined"
  | some s => s

/-- JS falsiness of a string-or-undefined value: `undefined` and the empty
string are falsy. -/
def jsFalsy : JSString → Bool
  | none => true
  | some s => s.isEmpty

/-- JS or-else on a possibly-recorded error (JS resolutionError or err). -/
def jsOr (a b : Option α) : Option α :=
  match a with
  | some x => some x
  | none => b

/-- Structural substring search helper over character lists. -/
def hasSubstrAux (pat : List Char) : List Char → Bool
  | [] => pat.isEmpty
  | x :: xs => pat.isPrefixOf (x :: xs) || hasSubstrAux pat xs

/-- JS `s.includes(pat)`. -/
def hasSubstr (s pat : String) : Bool := hasSubstrAux pat.data s.data

/-- JS `s.startsWith(pre)`. -/
def strStartsWith (s pre : String) : Bool := pre.data.isPrefixOf s.data

/-- Structural splitter for JS `s.split('/')`. -/
def splitSlashAux : List Char → List Char → List String
  | [], acc => [String.mk acc.reverse]
  | x :: xs, acc =>
      if x = '/' then String.mk acc.reverse :: splitSlashAux xs []
      else splitSlashAux xs (x :: acc)

/-- JS `s.split('/')`. -/
def splitSlash (s : String) : List String := splitSlashAux s.data []

/-- Interpolating a JS array of strings into a template literal joins the
elements with commas (`Array.prototype.toString`). -/
def arrTemplate (l : List String) : String := String.intercalate "," l

/-- Modelled from the spec: the configured CDN origin constant `PIKA_CDN`
exported by util.ts, which is not under src/.  Only the fact that it is the
origin prefix of every CDN URL matters. -/
def PIKA_CDN : String := "https://cdn.pika.dev"

/-- Modelled from the spec: the configured CDN origin constant
`SKYPACK_ORIGIN` used by the freshness-aware read path (util.ts is not under
src/). -/
def SKYPACK_ORIGIN : String := "https://cdn.skypack.dev"

/-- The response headers the subsystem inspects (absent header = `none`). -/
structure Headers where
  xImportStatus : JSString := none
  xImportUrl : JSString := none
  xPinnedUrl : JSString := none
  xTypescriptTypes : JSString := none
  cacheControl : JSString := none
deriving DecidableEq

/-- An HTTP response as surfaced by `got` with `throwHttpErrors: false`. -/
structure Response where
  statusCode : Nat
  headers : Headers
  body : String
deriving DecidableEq

/-- The check that the optional cache-control header includes a max-age
signal, coerced to bool. -/
def cacheControlHasMaxAge (h : Headers) : Bool :=
  match h.cacheControl with
  | none => false
  | some s => hasSubstr s "max-age="

/-- Metadata stored with a permanent-policy cache entry.  A JS object with
optional fields: entries written by resolveDependencyByUrl carry
`installUrl` and `typesUrl` but no `pinnedUrl` field. -/
structure CacheMetadata where
  installUrl : JSString := none
  typesUrl : JSString := none
  pinnedUrl : JSString := none
deriving DecidableEq

/-- A cacache entry: body data plus metadata. -/
structure CacheEntry where
  data : String
  metadata : CacheMetadata
deriving DecidableEq

/-- Process state for the skypack resolution module: the persistent
resource cache, the in-memory CDN response memo, and the log of network
requests issued so far (in order). -/
structure CDNState where
  resourceCache : List (String × CacheEntry) := []
  inMemoryCDNCache : List (String × Response) := []
  netLog : List String := []
deriving DecidableEq

/-- The network oracle: the response the server gives to the n-th request
(0-based, counted by `netLog.length`) for a given URL. -/
abbrev Net := Nat → String → Response

/-- Insert/overwrite in an association list with JS object semantics:
an existing key is updated in place, a new key is appended. -/
def alistPut : List (String × β) → String → β → List (String × β)
  | [], k, v => [(k, v)]
  | (k1, v1) :: rest, k, v =>
      if k1 = k then (k1, v) :: rest else (k1, v1) :: alistPut rest k v

/-- URL normalization used throughout: prepend the CDN origin unless the
given string already starts with it. -/
def normalizeUrl (u : String) : String :=
  if strStartsWith u PIKA_CDN then u else PIKA_CDN ++ u

/-- Embedding of `fetchCDNResource` (skypack/src/index.ts lines 10-30):
normalize the URL against the origin, serve from the in-memory memo when
present, otherwise issue the request, memoizing the response only when it
carries a `cache-control: max-age=` signal. -/
def fetchCDNResource (net : Net) (resourceUrl : String) (st : CDNState) :
    Response × CDNState :=
  let url := normalizeUrl resourceUrl
  match st.inMemoryCDNCache.lookup url with
  | some r => (r, st)
  | none =>
      let response := net st.netLog.length url
      let st1 : CDNState := { st with netLog := st.netLog ++ [url] }
      let st2 : CDNState :=
        if cacheControlHasMaxAge response.headers then
          { st1 with inMemoryCDNCache := alistPut st1.inMemoryCDNCache url response }
        else st1
      (response, st2)

/-- The `{body, pinnedUrl}` result of a resolution; `pinnedUrl` is a JS
string value that the code can in fact leave `undefined`. -/
structure ResolutionResult where
  body : String
  pinnedUrl : JSString
deriving DecidableEq

/-- The distinct `throw new Error(...)` sites of the resolution module. -/
inductive ResolveError where
  | reactWorkaround
  | complexSemver (spec semver : String)
  | failedResolve (statusCode : Nat) (url body : String)
  | buildFailed (spec semver : String)
  | missingImportUrl
  | unexpectedPollStatus (statusCode : Nat) (url : String)
deriving DecidableEq

/-- JS `typesUrlPath && `${PIKA_CDN}${typesUrlPath}``: `undefined` stays
`undefined`, the empty string short-circuits to itself. -/
def typesUrlOf (typesUrlPath : JSString) : JSString :=
  match typesUrlPath with
  | none => none
  | some s => if s.isEmpty then some s else some (PIKA_CDN ++ s)

/-- Embedding of `resolveDependencyByUrl` (skypack/src/index.ts lines
136-165): normalize, serve body and `metadata.pinnedUrl` from the persistent
cache on a hit, otherwise fetch; non-200 is an error; a response carrying a
max-age signal is written to the persistent cache with metadata
`{installUrl, typesUrl}`. -/
def resolveDependencyByUrl (net : Net) (installUrl : String) (st : CDNState) :
    Except ResolveError ResolutionResult × CDNState :=
  let url := normalizeUrl installUrl
  match st.resourceCache.lookup url with
  | some cachedResult =>
      (.ok { body := cachedResult.data, pinnedUrl := cachedResult.metadata.pinnedUrl }, st)
  | none =>
      let r := fetchCDNResource net url st
      if r.1.statusCode ≠ 200 then
        (.error (.failedResolve r.1.statusCode url r.1.body), r.2)
      else
        let typesUrl := typesUrlOf r.1.headers.xTypescriptTypes
        let entry : CacheEntry :=
          { data := r.1.body,
            metadata := { installUrl := some url, typesUrl := typesUrl, pinnedUrl := none } }
        let st2 : CDNState :=
          if cacheControlHasMaxAge r.1.headers then
            { r.2 with resourceCache := alistPut r.2.resourceCache url entry }
          else r.2
        (.ok { body := r.1.body, pinnedUrl := some url }, st2)

/-- An import map / lockfile: a JS object mapping specifier to URL.  Values
are JS strings (the generator can in fact store `undefined`). -/
structure ImportMap where
  imports : List (String × JSString)
deriving DecidableEq

/-- The lockfile-pin check of resolveDependencyByName (line 57):
`lockfile && lockfile.imports[installSpecifier]` must be truthy. -/
def lockfilePin (lockfile : Option ImportMap) (spec : String) : Option String :=
  match lockfile with
  | none => none
  | some lf =>
      match lf.imports.lookup spec with
      | none => none
      | some v => if jsFalsy v then none else v

/-- The lookup-URL construction of resolveDependencyByName (lines 77-87).
`installSpecifier.split('/')` is destructured into the first part, an
optional second part and the remaining parts; the remaining sub-path parts
are filtered for truthiness, mapped to `'/' + p`, and interpolated into the
template literal as a JS array (hence comma-joined). -/
def lookupUrl (installSpecifier packageSemver : String) : String :=
  let parts := splitSlash installSpecifier
  let specPart1 := parts.headD ""
  let specPart2 : JSString := parts.get? 1
  let specParts := parts.drop 2
  if strStartsWith specPart1 "@" then
    PIKA_CDN ++ ("/" ++ specPart1 ++ "/" ++ jsTemplate specPart2 ++ "@" ++ packageSemver ++
      arrTemplate ((specParts.filter (fun p => ¬ p.isEmpty)).map (fun p => "/" ++ p)))
  else
    PIKA_CDN ++ ("/" ++ specPart1 ++ "@" ++ packageSemver ++
      arrTemplate (((specPart2.toList ++ specParts).filter (fun p => ¬ p.isEmpty)).map
        (fun p => "/" ++ p)))

/-- The semver validation of the lookup path (lines 66-75): the two
deprecated React workaround prefixes, then complex semver (space or colon). -/
def semverValidationError (installSpecifier packageSemver : String) :
    Option ResolveError :=
  if strStartsWith packageSemver "npm:@reactesm" ||
      strStartsWith packageSemver "npm:@pika/react" then
    some .reactWorkaround
  else if hasSubstr packageSemver " " || hasSubstr packageSemver ":" then
    some (.complexSemver installSpecifier packageSemver)
  else
    none

/-- Embedding of `resolveDependencyByName` specialized to `canRetry = false`
(the body the single recursive call runs): identical to the general body
except that the pending/polling branch is unreachable, because
the no-retry-or-FAIL guard already throws. -/
def resolveDependencyByNameNoRetry (net : Net) (installSpecifier packageSemver : String)
    (lockfile : Option ImportMap) (st : CDNState) :
    Except ResolveError ResolutionResult × CDNState :=
  match lockfilePin lockfile installSpecifier with
  | some installUrl => resolveDependencyByUrl net installUrl st
  | none =>
      match semverValidationError installSpecifier packageSemver with
      | some e => (.error e, st)
      | none =>
          let r := fetchCDNResource net (lookupUrl installSpecifier packageSemver) st
          if r.1.statusCode ≠ 200 then
            (.error (.failedResolve r.1.statusCode (lookupUrl installSpecifier packageSemver) r.1.body), r.2)
          else if r.1.headers.xImportStatus = some "SUCCESS" then
            (.ok { body := r.1.body,
                   pinnedUrl := some (PIKA_CDN ++ jsTemplate r.1.headers.xPinnedUrl) }, r.2)
          else
            (.error (.buildFailed installSpecifier packageSemver), r.2)

/-- Embedding of `resolveDependencyByName` (skypack/src/index.ts lines
41-125): lockfile pin delegates to resolveDependencyByUrl; otherwise
validate the semver, issue the lookup request, and branch on the
`x-import-status` signal; a pending build polls `x-import-url` once and
retries exactly once with `canRetry = false`
(`resolveDependencyByNameNoRetry`). -/
def resolveDependencyByName (net : Net) (installSpecifier packageSemver : String)
    (lockfile : Option ImportMap) (canRetry : Bool) (st : CDNState) :
    Except ResolveError ResolutionResult × CDNState :=
  match lockfilePin lockfile installSpecifier with
  | some installUrl => resolveDependencyByUrl net installUrl st
  | none =>
      match semverValidationError installSpecifier packageSemver with
      | some e => (.error e, st)
      | none =>
          let r := fetchCDNResource net (lookupUrl installSpecifier packageSemver) st
          if r.1.statusCode ≠ 200 then
            (.error (.failedResolve r.1.statusCode (lookupUrl installSpecifier packageSemver) r.1.body), r.2)
          else if r.1.headers.xImportStatus = some "SUCCESS" then
            (.ok { body := r.1.body,
                   pinnedUrl := some (PIKA_CDN ++ jsTemplate r.1.headers.xPinnedUrl) }, r.2)
          else if ¬ canRetry ∨ r.1.headers.xImportStatus = some "FAIL" then
            (.error (.buildFailed installSpecifier packageSemver), r.2)
          else if jsFalsy r.1.headers.xImportUrl then
            (.error .missingImportUrl, r.2)
          else
            let p := fetchCDNResource net (jsTemplate r.1.headers.xImportUrl) r.2
            if p.1.statusCode ≠ 200 then
              (.error (.unexpectedPollStatus p.1.statusCode
                (PIKA_CDN ++ jsTemplate r.1.headers.xImportUrl)), p.2)
            else
              resolveDependencyByNameNoRetry net installSpecifier packageSemver lockfile p.2

/-- One queued task of generateImportMap (lines 176-187): resolve, insert
the pinned URL on success, record the error only when none was recorded
yet. -/
def runTask (net : Net) (lockfile : Option ImportMap)
    (acc : List (String × JSString) × Option ResolveError × CDNState)
    (dep : String × String) :
    List (String × JSString) × Option ResolveError × CDNState :=
  let r := resolveDependencyByName net dep.1 dep.2 lockfile true acc.2.2
  match r.1 with
  | .ok res => (alistPut acc.1 dep.1 res.pinnedUrl, acc.2.1, r.2)
  | .error e => (acc.1, jsOr acc.2.1 (some e), r.2)

/-- Embedding of `generateImportMap` (lines 167-196): run one task per web
dependency, collect successes into a fresh import map, keep the first error,
and fail with it only after all tasks have completed. -/
def generateImportMap (net : Net) (webDependencies : List (String × String))
    (lockfile : Option ImportMap) (st : CDNState) :
    Except ResolveError ImportMap × CDNState :=
  let out := webDependencies.foldl (runTask net lockfile) ([], none, st)
  match out.2.1 with
  | some e => (.error e, out.2.2)
  | none => (.ok { imports := out.1 }, out.2.2)

/-- First match of the regex `max-age=(\d+)` in a cache-control value:
the digits following the first occurrence of `max-age=` that is immediately
followed by at least one digit. -/
def maxAgeMatchAux : List Char → Option (List Char)
  | [] => none
  | x :: xs =>
      if ("max-age=".data).isPrefixOf (x :: xs) then
        let digits := ((x :: xs).drop "max-age=".length).takeWhile Char.isDigit
        if digits.isEmpty then maxAgeMatchAux xs else some digits
      else maxAgeMatchAux xs

/-- Decimal value of a digit list. -/
def digitsToNat (l : List Char) : Nat :=
  l.foldl (fun n c => 10 * n + (c.toNat - 48)) 0

/-- The regex match of max-age digits in the cache-control header, reduced to the
captured TTL in seconds. -/
def maxAgeOf (h : Headers) : Option Nat :=
  match h.cacheControl with
  | none => none
  | some s =>
      match maxAgeMatchAux s.data with
      | none => none
      | some digits => some (digitsToNat digits)

/-- A freshness-policy cache entry: body plus metadata
`{headers, statusCode, freshUntil}` (part_002 lines 6-10), with the
`freshUntil` wall-clock date modelled as a natural number. -/
structure FreshEntry where
  data : String
  headers : Headers
  statusCode : Nat
  freshUntil : Nat
deriving DecidableEq

/-- Process state for the freshness-aware read path: the shared persistent
cache, the current wall-clock time, and the network request log. -/
structure FreshState where
  resourceCache : List (String × FreshEntry) := []
  now : Nat := 0
  netLog : List String := []
deriving DecidableEq

/-- Network oracle for the read path: the n-th request either yields a
response or throws (`Except.error` carries the thrown network error). -/
abbrev FreshNet := Nat → String → Except String Response

/-- The record fetchCDN resolves with. -/
structure FetchCDNResult where
  body : String
  headers : Headers
  statusCode : Nat
  isCached : Bool
  isStale : Bool
deriving DecidableEq

/-- URL normalization of the read path: prepend the skypack origin unless
already origin-qualified. -/
def skypackNormalize (u : String) : String :=
  if strStartsWith u SKYPACK_ORIGIN then u else SKYPACK_ORIGIN ++ u

/-- Embedding of `fetchCDN` (src/unnamed/part_002 lines 12-83): a cache
entry whose `freshUntil` has not passed is served directly; otherwise the
network is tried, falling back to the (possibly expired) cache entry on a
thrown network error and propagating the error when there is no entry; a
fresh response carrying a `max-age` TTL is written through to the cache. -/
def fetchCDN (net : FreshNet) (resourceUrl : String) (st : FreshState) :
    Except String FetchCDNResult × FreshState :=
  let url := skypackNormalize resourceUrl
  let cachedResult := st.resourceCache.lookup url
  let freshHit :=
    match cachedResult with
    | some c => if st.now ≤ c.freshUntil then some c else none
    | none => none
  match freshHit with
  | some c =>
      (.ok { isCached := true, isStale := false, body := c.data,
             headers := c.headers, statusCode := c.statusCode }, st)
  | none =>
      let st1 : FreshState := { st with netLog := st.netLog ++ [url] }
      match net st.netLog.length url with
      | .error err =>
          match cachedResult with
          | some c =>
              (.ok { isCached := true, isStale := true, body := c.data,
                     headers := c.headers, statusCode := c.statusCode }, st1)
          | none => (.error err, st1)
      | .ok freshResult =>
          let st2 : FreshState :=
            match maxAgeOf freshResult.headers with
            | some ttl =>
                let entry : FreshEntry :=
                  { data := freshResult.body, headers := freshResult.headers,
                    statusCode := freshResult.statusCode, freshUntil := st.now + ttl }
                { st1 with resourceCache := alistPut st1.resourceCache url entry }
            | none => st1
          (.ok { body := freshResult.body, headers := freshResult.headers,
                 statusCode := freshResult.statusCode,
                 isCached := false, isStale := false }, st2)

/-! ## Helper lemmas -/

theorem isPrefixOf_append_self (l1 l2 : List Char) : l1.isPrefixOf (l1 ++ l2) = true := by
  induction l1 with
  | nil => simp [List.isPrefixOf]
  | cons x xs ih => simp [List.isPrefixOf, ih]

theorem strStartsWith_append_self (p s : String) : strStartsWith (p ++ s) p = true := by
  unfold strStartsWith
  rw [String.data_append]
  exact isPrefixOf_append_self p.data s.data

theorem normalizeUrl_startsWith (u : String) :
    strStartsWith (normalizeUrl u) PIKA_CDN = true := by
  unfold normalizeUrl
  split
  · assumption
  · exact strStartsWith_append_self PIKA_CDN u

theorem normalizeUrl_idem (u : String) : normalizeUrl (normalizeUrl u) = normalizeUrl u := by
  unfold normalizeUrl
  split
  · simp [*]
  · simp [strStartsWith_append_self PIKA_CDN u]

/-- resolveDependencyByName with the retry already spent is exactly the
no-retry specialization the recursive call was unrolled into. -/
theorem resolveDependencyByName_false_eq (net : Net) (s v : String)
    (lf : Option ImportMap) (st : CDNState) :
    resolveDependencyByName net s v lf false st =
      resolveDependencyByNameNoRetry net s v lf st := by
  unfold resolveDependencyByName resolveDependencyByNameNoRetry
  rfl

theorem fetchCDNResource_resourceCache (net : Net) (u : String) (st : CDNState) :
    (fetchCDNResource net u st).2.resourceCache = st.resourceCache := by
  cases hm : st.inMemoryCDNCache.lookup (normalizeUrl u) with
  | some r => simp [fetchCDNResource, hm]
  | none =>
      simp only [fetchCDNResource, hm]
      split <;> rfl

theorem fetchCDNResource_netLog (net : Net) (u : String) (st : CDNState) :
    (fetchCDNResource net u st).2.netLog = st.netLog ∨
    (fetchCDNResource net u st).2.netLog = st.netLog ++ [normalizeUrl u] := by
  cases hm : st.inMemoryCDNCache.lookup (normalizeUrl u) with
  | some r => left; simp [fetchCDNResource, hm]
  | none =>
      right
      simp only [fetchCDNResource, hm]
      split <;> rfl

theorem fetchCDNResource_netLog_le (net : Net) (u : String) (st : CDNState) :
    (fetchCDNResource net u st).2.netLog.length ≤ st.netLog.length + 1 := by
  rcases fetchCDNResource_netLog net u st with h | h <;> rw [h] <;> simp

theorem resolveDependencyByUrl_netLog (net : Net) (u : String) (st : CDNState) :
    (resolveDependencyByUrl net u st).2.netLog = st.netLog ∨
    (resolveDependencyByUrl net u st).2.netLog = st.netLog ++ [normalizeUrl u] := by
  have hfetch := fetchCDNResource_netLog net (normalizeUrl u) st
  rw [normalizeUrl_idem] at hfetch
  cases hc : st.resourceCache.lookup (normalizeUrl u) with
  | some c => left; simp [resolveDependencyByUrl, hc]
  | none =>
      simp only [resolveDependencyByUrl, hc]
      split
      · exact hfetch
      · split
        · simpa using hfetch
        · exact hfetch

theorem resolveDependencyByUrl_netLog_le (net : Net) (u : String) (st : CDNState) :
    (resolveDependencyByUrl net u st).2.netLog.length ≤ st.netLog.length + 1 := by
  rcases resolveDependencyByUrl_netLog net u st with h | h <;> rw [h] <;> simp

theorem resolveDependencyByNameNoRetry_netLog_le (net : Net) (s v : String)
    (lf : Option ImportMap) (st : CDNState) :
    (resolveDependencyByNameNoRetry net s v lf st).2.netLog.length ≤
      st.netLog.length + 1 := by
  unfold resolveDependencyByNameNoRetry
  split
  · exact resolveDependencyByUrl_netLog_le ..
  · split
    · simp
    · dsimp only
      have hfetch := fetchCDNResource_netLog_le net (lookupUrl s v) st
      split
      · exact hfetch
      · split
        · exact hfetch
        · exact hfetch

theorem resolveDependencyByName_netLog_le (net : Net) (s v : String)
    (lf : Option ImportMap) (canRetry : Bool) (st : CDNState) :
    (resolveDependencyByName net s v lf canRetry st).2.netLog.length ≤
      st.netLog.length + 3 := by
  unfold resolveDependencyByName
  split
  · rename_i installUrl heq
    have h := resolveDependencyByUrl_netLog_le net installUrl st
    omega
  · split
    · simp
    · dsimp only
      have h1 := fetchCDNResource_netLog_le net (lookupUrl s v) st
      split
      · dsimp only; omega
      · split
        · dsimp only; omega
        · split
          · dsimp only; omega
          · split
            · dsimp only; omega
            · have h2 := fetchCDNResource_netLog_le net
                (jsTemplate (fetchCDNResource net (lookupUrl s v) st).1.headers.xImportUrl)
                (fetchCDNResource net (lookupUrl s v) st).2
              split
              · dsimp only; omega
              · have h3 := resolveDependencyByNameNoRetry_netLog_le net s v lf
                  (fetchCDNResource net
                    (jsTemplate (fetchCDNResource net (lookupUrl s v) st).1.headers.xImportUrl)
                    (fetchCDNResource net (lookupUrl s v) st).2).2
                omega

theorem jsOr_none_right (a : Option α) : jsOr a none = a := by
  cases a <;> rfl

theorem jsOr_some_left (x : α) (b : Option α) : jsOr (some x) b = some x := rfl

theorem jsOr_assoc (a b c : Option α) : jsOr (jsOr a b) c = jsOr a (jsOr b c) := by
  cases a <;> rfl

theorem lookup_cons (a : String) (p : String × β) (rest : List (String × β)) :
    List.lookup a (p :: rest) = if a = p.1 then some p.2 else List.lookup a rest := by
  obtain ⟨q1, q2⟩ := p
  by_cases h : a = q1
  · simp [List.lookup, beq_iff_eq.mpr h, h]
  · simp [List.lookup, beq_eq_false_iff_ne.mpr h, h]

theorem lookup_alistPut_self (l : List (String × β)) (k : String) (v : β) :
    (alistPut l k v).lookup k = some v := by
  induction l with
  | nil => simp [alistPut, lookup_cons]
  | cons p rest ih =>
      obtain ⟨q1, q2⟩ := p
      by_cases h : q1 = k
      · simp [alistPut, h, lookup_cons]
      · simp [alistPut, h, lookup_cons, Ne.symm h, ih]

theorem lookup_alistPut_ne (l : List (String × β)) (k s : String) (v : β)
    (h : s ≠ k) : (alistPut l k v).lookup s = l.lookup s := by
  induction l with
  | nil => simp [alistPut, lookup_cons, h]
  | cons p rest ih =>
      obtain ⟨q1, q2⟩ := p
      by_cases hp : q1 = k
      · simp [alistPut, hp, lookup_cons, h]
      · simp only [alistPut, if_neg hp, lookup_cons, ih]

theorem alistPut_keys (l : List (String × β)) (k : String) (v : β) :
    (alistPut l k v).map Prod.fst =
      if (l.lookup k).isSome then l.map Prod.fst else l.map Prod.fst ++ [k] := by
  induction l with
  | nil => simp [alistPut, List.lookup]
  | cons p rest ih =>
      obtain ⟨q1, q2⟩ := p
      by_cases h : q1 = k
      · simp [alistPut, h, lookup_cons]
      · rw [lookup_cons]
        simp only [alistPut, if_neg h, List.map_cons, ih]
        by_cases hc : (rest.lookup k).isSome
        · simp [hc, Ne.symm h]
        · simp [hc, Ne.symm h]

theorem lookup_isSome_of_mem_keys (l : List (String × β)) (a : String)
    (ha : a ∈ l.map Prod.fst) : (l.lookup a).isSome := by
  induction l with
  | nil => simp at ha
  | cons q rest ih =>
      rw [List.map_cons] at ha
      rcases List.mem_cons.mp ha with h1 | h1
      · simp [lookup_cons, h1]
      · by_cases hq : a = q.1
        · simp [lookup_cons, hq]
        · simpa [lookup_cons, hq] using ih h1

theorem alistPut_keys_nodup (l : List (String × β)) (k : String) (v : β)
    (h : (l.map Prod.fst).Nodup) : ((alistPut l k v).map Prod.fst).Nodup := by
  rw [alistPut_keys]
  split
  · exact h
  · rename_i hk
    rw [List.nodup_append]
    refine ⟨h, List.nodup_singleton k, ?_⟩
    intro a ha hb
    simp only [List.mem_singleton] at hb
    subst hb
    exact hk (lookup_isSome_of_mem_keys l a ha)

theorem lookupUrl_startsWith (s v : String) :
    strStartsWith (lookupUrl s v) PIKA_CDN = true := by
  unfold lookupUrl
  dsimp only
  split
  · exact strStartsWith_append_self ..
  · exact strStartsWith_append_self ..

theorem normalizeUrl_lookupUrl (s v : String) :
    normalizeUrl (lookupUrl s v) = lookupUrl s v := by
  unfold normalizeUrl
  rw [if_pos (lookupUrl_startsWith s v)]

/-! ## Scenario networks -/

/-- A CDN that always answers 200 with a permanent-cacheable body. -/
def netPermanent : Net := fun _ _ =>
  { statusCode := 200,
    headers := { cacheControl := some "public, max-age=600" },
    body := "export default 1;" }

/-- A 200 response whose build status is PENDING, with a poll location. -/
def pendingResponse : Response :=
  { statusCode := 200,
    headers := { xImportStatus := some "PENDING", xImportUrl := some "/poll/pkg" },
    body := "" }

/-- A 200 response whose build status is SUCCESS, with a pinned URL. -/
def successResponse : Response :=
  { statusCode := 200,
    headers := { xImportStatus := some "SUCCESS", xPinnedUrl := some "/-/pkg@v1.0.0.js" },
    body := "export default 1;" }

/-- A CDN whose first answer is PENDING, whose second (the poll) is a plain
200, and whose third (the retried lookup) is SUCCESS. -/
def netPendingThenSuccess : Net := fun i _ =>
  if i = 0 then pendingResponse
  else if i = 1 then { statusCode := 200, headers := {}, body := "" }
  else successResponse

/-- A CDN that reports PENDING on every request. -/
def netAlwaysPending : Net := fun _ _ => pendingResponse

/-- A CDN that reports a PENDING build but supplies no poll location. -/
def netPendingNoPollUrl : Net := fun _ _ =>
  { statusCode := 200, headers := { xImportStatus := some "PENDING" }, body := "" }

/-- A CDN that reports PENDING and then fails the poll request with 500. -/
def netPendingPoll500 : Net := fun i _ =>
  if i = 0 then pendingResponse
  else { statusCode := 500, headers := {}, body := "server error" }

/-- A CDN whose answers are 200 but carry no cache signal, and whose body
changes between the first and second request. -/
def netChanging : Net := fun i _ =>
  if i = 0 then { statusCode := 200, headers := {}, body := "A" }
  else { statusCode := 200, headers := {}, body := "B" }

/-! ## Claims -/

/-- C1: the claim states that every successful resolution returns an
absolute, origin-qualified pinnedUrl, in particular on a persistent-cache
hit.  The code violates this: resolveDependencyByUrl writes cache metadata
`{installUrl, typesUrl}` with no `pinnedUrl` field, so the cache-hit path
`cachedResult.metadata.pinnedUrl` yields `undefined` (`none`), contradicting
both the claim and the declared return type `{body: string; pinnedUrl:
string}`.  Evaluation at the failing input: the first call returns an
origin-qualified pinnedUrl and caches the body; the second call is a cache
hit and returns `pinnedUrl = none`. -/
theorem c1_cache_hit_pinnedUrl_undefined :
    (resolveDependencyByUrl netPermanent "/pkg@1.0.0" {}).1 =
      .ok { body := "export default 1;",
            pinnedUrl := some (PIKA_CDN ++ "/pkg@1.0.0") } ∧
    (resolveDependencyByUrl netPermanent "/pkg@1.0.0"
        (resolveDependencyByUrl netPermanent "/pkg@1.0.0" {}).2).1 =
      .ok { body := "export default 1;", pinnedUrl := none } := by
  constructor
  · decide
  · decide

/-- C2: a lockfile pin makes resolveDependencyByName delegate directly to
resolveDependencyByUrl with the pinned URL, for every semver (no validation
runs, even for complex ranges) and every retry flag; the delegated call
issues at most the single pinned-URL request, never a lookup-protocol
request. -/
theorem c2_pin_fast_path (net : Net) (spec semver : String) (lf : Option ImportMap)
    (canRetry : Bool) (st : CDNState) (u : String)
    (h : lockfilePin lf spec = some u) :
    resolveDependencyByName net spec semver lf canRetry st =
      resolveDependencyByUrl net u st ∧
    ((resolveDependencyByUrl net u st).2.netLog = st.netLog ∨
     (resolveDependencyByUrl net u st).2.netLog = st.netLog ++ [normalizeUrl u]) := by
  refine ⟨?_, resolveDependencyByUrl_netLog net u st⟩
  unfold resolveDependencyByName
  rw [h]

/-- Witness for C2: a concrete lockfile pin for "foo", resolved with the
complex semver range "1 2" (which the lookup path would reject), delegates
to the URL resolver. -/
theorem c2_pin_fast_path_witness :
    lockfilePin (some { imports := [("foo", some "https://cdn/foo@1.0.0")] }) "foo" =
      some "https://cdn/foo@1.0.0" ∧
    resolveDependencyByName netPermanent "foo" "1 2"
        (some { imports := [("foo", some "https://cdn/foo@1.0.0")] }) true {} =
      resolveDependencyByUrl netPermanent "https://cdn/foo@1.0.0" {} := by
  refine ⟨by decide, ?_⟩
  exact (c2_pin_fast_path netPermanent "foo" "1 2"
    (some { imports := [("foo", some "https://cdn/foo@1.0.0")] }) true {}
    "https://cdn/foo@1.0.0" (by decide)).1

/-- C3: the claim states that sub-path segments are preserved verbatim and
re-appended after the version.  This holds for at most one sub-path segment
(the two spec examples are confirmed below), but the code interpolates the
JS array `specParts.filter(Boolean).map(p => '/' + p)` directly into a
template literal, so two or more segments are joined with commas
(`Array.prototype.toString`): `pkg/a/b` yields `.../pkg@2.1.0/a,/b` instead
of `.../pkg@2.1.0/a/b`, and the resolver really requests that malformed
URL. -/
theorem c3_lookup_url_comma_bug :
    lookupUrl "@scope/pkg/sub" "2.1.0" = "https://cdn.pika.dev/@scope/pkg@2.1.0/sub" ∧
    lookupUrl "pkg/sub" "2.1.0" = "https://cdn.pika.dev/pkg@2.1.0/sub" ∧
    lookupUrl "pkg" "2.1.0" = "https://cdn.pika.dev/pkg@2.1.0" ∧
    lookupUrl "pkg/a/b" "2.1.0" = "https://cdn.pika.dev/pkg@2.1.0/a,/b" ∧
    lookupUrl "pkg/a/b" "2.1.0" ≠ "https://cdn.pika.dev/pkg@2.1.0/a/b" ∧
    (resolveDependencyByName netAlwaysPending "pkg/a/b" "2.1.0" none false {}).2.netLog =
      ["https://cdn.pika.dev/pkg@2.1.0/a,/b"] := by
  refine ⟨by decide, by decide, by decide, by decide, by decide, by decide⟩

/-- C4: at most two lookup attempts ever happen.  In general a resolution
issues at most three requests (lookup, poll, retried lookup).  Concretely: a
PENDING lookup followed by a 200 poll and a SUCCESS retry completes after
exactly one retry (three requests: two lookups and one poll), and a CDN that
stays PENDING on both attempts fails with the build-failure error after the
same three requests -- the polling state is never entered twice. -/
theorem c4_single_retry_bound :
    (∀ (net : Net) (s v : String) (lf : Option ImportMap) (canRetry : Bool) (st : CDNState),
      (resolveDependencyByName net s v lf canRetry st).2.netLog.length ≤
        st.netLog.length + 3) ∧
    (resolveDependencyByName netPendingThenSuccess "pkg" "1.0.0" none true {}).1 =
      .ok { body := "export default 1;",
            pinnedUrl := some "https://cdn.pika.dev/-/pkg@v1.0.0.js" } ∧
    (resolveDependencyByName netPendingThenSuccess "pkg" "1.0.0" none true {}).2.netLog =
      ["https://cdn.pika.dev/pkg@1.0.0", "https://cdn.pika.dev/poll/pkg",
       "https://cdn.pika.dev/pkg@1.0.0"] ∧
    (resolveDependencyByName netAlwaysPending "pkg" "1.0.0" none true {}).1 =
      .error (.buildFailed "pkg" "1.0.0") ∧
    (resolveDependencyByName netAlwaysPending "pkg" "1.0.0" none true {}).2.netLog =
      ["https://cdn.pika.dev/pkg@1.0.0", "https://cdn.pika.dev/poll/pkg",
       "https://cdn.pika.dev/pkg@1.0.0"] := by
  refine ⟨resolveDependencyByName_netLog_le, by decide, by decide, by decide, by decide⟩

/-- C5: with retry still permitted, a 200 lookup whose build status is
pending fails fatally with the protocol error when no x-import-url was
supplied (one request, nothing polled, nothing retried), and fails fatally
with the unexpected-status error when the single poll answers non-200 (two
requests, no retried lookup). -/
theorem c5_pending_protocol_errors :
    (resolveDependencyByName netPendingNoPollUrl "pkg" "1.0.0" none true {}).1 =
      .error .missingImportUrl ∧
    (resolveDependencyByName netPendingNoPollUrl "pkg" "1.0.0" none true {}).2.netLog =
      ["https://cdn.pika.dev/pkg@1.0.0"] ∧
    (resolveDependencyByName netPendingPoll500 "pkg" "1.0.0" none true {}).1 =
      .error (.unexpectedPollStatus 500 "https://cdn.pika.dev/poll/pkg") ∧
    (resolveDependencyByName netPendingPoll500 "pkg" "1.0.0" none true {}).2.netLog =
      ["https://cdn.pika.dev/pkg@1.0.0", "https://cdn.pika.dev/poll/pkg"] := by
  refine ⟨by decide, by decide, by decide, by decide⟩

/-- C6: on the lookup path, a semver using one of the two deprecated React
workaround prefixes, or containing a space or a colon, fails immediately:
the call returns the corresponding validation error with the state
completely unchanged (no network request, no retry), for every retry
flag. -/
theorem c6_validation_fatal (net : Net) (spec semver : String) (lf : Option ImportMap)
    (canRetry : Bool) (st : CDNState)
    (hpin : lockfilePin lf spec = none)
    (hbad : (strStartsWith semver "npm:@reactesm" ||
             strStartsWith semver "npm:@pika/react") = true ∨
            (hasSubstr semver " " || hasSubstr semver ":") = true) :
    resolveDependencyByName net spec semver lf canRetry st =
      (.error (if (strStartsWith semver "npm:@reactesm" ||
                   strStartsWith semver "npm:@pika/react") = true
               then .reactWorkaround
               else .complexSemver spec semver), st) := by
  unfold resolveDependencyByName
  rw [hpin]
  unfold semverValidationError
  by_cases hp : (strStartsWith semver "npm:@reactesm" ||
      strStartsWith semver "npm:@pika/react") = true
  · simp [hp]
  · rcases hbad with hb | hb
    · exact absurd hb hp
    · simp [hp, hb]

/-- Witness for C6: the complex semver "1 2" (embedded space) fails with the
complex-semver error and leaves the state untouched. -/
theorem c6_validation_fatal_witness :
    lockfilePin none "foo" = none ∧
    ((hasSubstr "1 2" " " || hasSubstr "1 2" ":") = true) ∧
    resolveDependencyByName netPermanent "foo" "1 2" none true {} =
      (.error (.complexSemver "foo" "1 2"), {}) := by
  refine ⟨rfl, by decide, ?_⟩
  rw [c6_validation_fatal netPermanent "foo" "1 2" none true {} rfl (Or.inr (by decide))]
  decide

/-- C7 counterexample: the claim says resolving the same URL twice always
returns an identical body with no second network request.  When the 200
response carries no cache signal, nothing is cached or memoized: with a
server whose body changes between requests, the two calls return different
bodies and the second call does issue a network request (two entries in the
request log). -/
theorem c7_idempotence_cex :
    (resolveDependencyByUrl netChanging "/x.js" {}).1 =
      .ok { body := "A", pinnedUrl := some "https://cdn.pika.dev/x.js" } ∧
    (resolveDependencyByUrl netChanging "/x.js"
        (resolveDependencyByUrl netChanging "/x.js" {}).2).1 =
      .ok { body := "B", pinnedUrl := some "https://cdn.pika.dev/x.js" } ∧
    (resolveDependencyByUrl netChanging "/x.js"
        (resolveDependencyByUrl netChanging "/x.js" {}).2).2.netLog =
      ["https://cdn.pika.dev/x.js", "https://cdn.pika.dev/x.js"] := by
  refine ⟨by decide, by decide, by decide⟩

/-- C7 amended: whenever the first call succeeds and leaves the URL in the
persistent cache (true on any cache hit, and on a fetch whose response
carried a max-age cache signal), the second call returns the same body and
performs no network request (it does not change the state at all). -/
theorem c7_permanent_cache_idempotent (net : Net) (u : String) (st : CDNState)
    (r1 : ResolutionResult)
    (h1 : (resolveDependencyByUrl net u st).1 = .ok r1)
    (h2 : ((resolveDependencyByUrl net u st).2.resourceCache.lookup
        (normalizeUrl u)).isSome = true) :
    ∃ r2 : ResolutionResult,
      resolveDependencyByUrl net u (resolveDependencyByUrl net u st).2 =
        (.ok r2, (resolveDependencyByUrl net u st).2) ∧ r2.body = r1.body := by
  cases hc : st.resourceCache.lookup (normalizeUrl u) with
  | some c =>
      have hfst : resolveDependencyByUrl net u st =
          (.ok { body := c.data, pinnedUrl := c.metadata.pinnedUrl }, st) := by
        unfold resolveDependencyByUrl
        dsimp only
        rw [hc]
      rw [hfst] at h1 ⊢
      dsimp only at h1 ⊢
      injection h1 with hh
      refine ⟨{ body := c.data, pinnedUrl := c.metadata.pinnedUrl }, hfst, ?_⟩
      rw [← hh]
  | none =>
      by_cases hs : (fetchCDNResource net (normalizeUrl u) st).1.statusCode ≠ 200
      · have hbad : (resolveDependencyByUrl net u st).1 =
            .error (.failedResolve (fetchCDNResource net (normalizeUrl u) st).1.statusCode
              (normalizeUrl u) (fetchCDNResource net (normalizeUrl u) st).1.body) := by
          unfold resolveDependencyByUrl
          dsimp only
          rw [hc]
          simp only [if_pos hs]
        rw [hbad] at h1
        exact absurd h1 (by simp)
      · by_cases hm : cacheControlHasMaxAge (fetchCDNResource net (normalizeUrl u) st).1.headers = true
        · have hfst : resolveDependencyByUrl net u st =
              (.ok { body := (fetchCDNResource net (normalizeUrl u) st).1.body,
                     pinnedUrl := some (normalizeUrl u) },
               { (fetchCDNResource net (normalizeUrl u) st).2 with
                 resourceCache := alistPut (fetchCDNResource net (normalizeUrl u) st).2.resourceCache
                   (normalizeUrl u)
                   { data := (fetchCDNResource net (normalizeUrl u) st).1.body,
                     metadata := { installUrl := some (normalizeUrl u),
                                   typesUrl := typesUrlOf
                                     (fetchCDNResource net (normalizeUrl u) st).1.headers.xTypescriptTypes,
                                   pinnedUrl := none } } }) := by
            unfold resolveDependencyByUrl
            dsimp only
            rw [hc]
            simp only [if_neg hs, if_pos hm]
          rw [hfst] at h1 ⊢
          dsimp only at h1 ⊢
          injection h1 with hh
          refine ⟨{ body := (fetchCDNResource net (normalizeUrl u) st).1.body,
                    pinnedUrl := none }, ?_, ?_⟩
          · unfold resolveDependencyByUrl
            dsimp only
            rw [lookup_alistPut_self]
          · rw [← hh]
        · have hfst2 : (resolveDependencyByUrl net u st).2 =
              (fetchCDNResource net (normalizeUrl u) st).2 := by
            unfold resolveDependencyByUrl
            dsimp only
            rw [hc]
            simp only [if_neg hs, if_neg hm]
          rw [hfst2, fetchCDNResource_resourceCache, hc] at h2
          simp at h2

/-- Witness for the amended C7: with a CDN answering 200 plus max-age, the
second resolution of the same URL is a silent cache hit with the same
body. -/
theorem c7_permanent_cache_idempotent_witness :
    (resolveDependencyByUrl netPermanent "/w.js" {}).1 =
      .ok { body := "export default 1;", pinnedUrl := some "https://cdn.pika.dev/w.js" } ∧
    ∃ r2 : ResolutionResult,
      resolveDependencyByUrl netPermanent "/w.js"
          (resolveDependencyByUrl netPermanent "/w.js" {}).2 =
        (.ok r2, (resolveDependencyByUrl netPermanent "/w.js" {}).2) ∧
      r2.body = "export default 1;" :=
  ⟨by decide,
   c7_permanent_cache_idempotent netPermanent "/w.js" {}
     { body := "export default 1;", pinnedUrl := some "https://cdn.pika.dev/w.js" }
     (by decide) (by decide)⟩

/-- C8: in the freshness-aware read path, a cache entry whose freshUntil
has not passed is returned immediately with isCached and not isStale and no
network call (the state is unchanged); when the network fetch throws and a
(possibly expired) entry exists, that entry is returned with isStale; when
the fetch throws and no entry exists, the network error propagates. -/
theorem c8_freshness_fallback (net : FreshNet) (url : String) (st : FreshState)
    (c : FreshEntry) (err : String) :
    (st.resourceCache.lookup (skypackNormalize url) = some c → st.now ≤ c.freshUntil →
      fetchCDN net url st =
        (.ok { isCached := true, isStale := false, body := c.data,
               headers := c.headers, statusCode := c.statusCode }, st)) ∧
    (st.resourceCache.lookup (skypackNormalize url) = some c → c.freshUntil < st.now →
      net st.netLog.length (skypackNormalize url) = .error err →
      fetchCDN net url st =
        (.ok { isCached := true, isStale := true, body := c.data,
               headers := c.headers, statusCode := c.statusCode },
         { st with netLog := st.netLog ++ [skypackNormalize url] })) ∧
    (st.resourceCache.lookup (skypackNormalize url) = none →
      net st.netLog.length (skypackNormalize url) = .error err →
      fetchCDN net url st =
        (.error err, { st with netLog := st.netLog ++ [skypackNormalize url] })) := by
  refine ⟨?_, ?_, ?_⟩
  · intro hc hf
    unfold fetchCDN
    dsimp only
    rw [hc]
    simp only [if_pos hf]
  · intro hc hf hn
    unfold fetchCDN
    dsimp only
    rw [hc]
    dsimp only
    rw [if_neg (by omega : ¬ st.now ≤ c.freshUntil)]
    dsimp only
    rw [hn]
  · intro hc hn
    unfold fetchCDN
    dsimp only
    rw [hc]
    dsimp only
    rw [hn]

/-- A cache entry used by the C8 witness scenarios. -/
def freshEntryW : FreshEntry :=
  { data := "cached body", headers := {}, statusCode := 200, freshUntil := 10 }

/-- A network that throws on every request. -/
def netThrowing : FreshNet := fun _ _ => .error "ECONNREFUSED"

/-- Witness for C8: the three branches at concrete inputs -- a fresh entry
served silently, a stale entry served as fallback when the network throws,
and the thrown error propagating on an empty cache. -/
theorem c8_freshness_fallback_witness :
    fetchCDN netThrowing "/a"
        { resourceCache := [("https://cdn.skypack.dev/a", freshEntryW)], now := 5 } =
      (.ok { isCached := true, isStale := false, body := "cached body",
             headers := {}, statusCode := 200 },
       { resourceCache := [("https://cdn.skypack.dev/a", freshEntryW)], now := 5 }) ∧
    fetchCDN netThrowing "/a"
        { resourceCache := [("https://cdn.skypack.dev/a", freshEntryW)], now := 20 } =
      (.ok { isCached := true, isStale := true, body := "cached body",
             headers := {}, statusCode := 200 },
       { resourceCache := [("https://cdn.skypack.dev/a", freshEntryW)], now := 20,
         netLog := ["https://cdn.skypack.dev/a"] }) ∧
    fetchCDN netThrowing "/a" { now := 20 } =
      (.error "ECONNREFUSED", { now := 20, netLog := ["https://cdn.skypack.dev/a"] }) := by
  refine ⟨?_, ?_, ?_⟩
  · exact (c8_freshness_fallback netThrowing "/a"
      { resourceCache := [("https://cdn.skypack.dev/a", freshEntryW)], now := 5 }
      freshEntryW "ECONNREFUSED").1 (by decide) (by decide)
  · exact (c8_freshness_fallback netThrowing "/a"
      { resourceCache := [("https://cdn.skypack.dev/a", freshEntryW)], now := 20 }
      freshEntryW "ECONNREFUSED").2.1 (by decide) (by decide) (by decide)
  · exact (c8_freshness_fallback netThrowing "/a" { now := 20 }
      freshEntryW "ECONNREFUSED").2.2 (by decide) (by decide)

/-- The per-task outcome trace of a batch: each web dependency is resolved
in order with the state threaded through; the trace pairs each specifier
with its outcome, alongside the final state. -/
def runTrace (net : Net) (lockfile : Option ImportMap) :
    List (String × String) → CDNState →
    List (String × Except ResolveError ResolutionResult) × CDNState
  | [], st => ([], st)
  | dep :: rest, st =>
      let r := resolveDependencyByName net dep.1 dep.2 lockfile true st
      let t := runTrace net lockfile rest r.2
      ((dep.1, r.1) :: t.1, t.2)

/-- The first error of an outcome trace (the one first-error-wins keeps). -/
def firstError : List (String × Except ResolveError ResolutionResult) → Option ResolveError
  | [] => none
  | (_, .error e) :: _ => some e
  | (_, .ok _) :: rest => firstError rest

/-- Fold the successful outcomes of a trace into an import-map object. -/
def successMap : List (String × Except ResolveError ResolutionResult) →
    List (String × JSString) → List (String × JSString)
  | [], m => m
  | (s, .ok r) :: rest, m => successMap rest (alistPut m s r.pinnedUrl)
  | (_, .error _) :: rest, m => successMap rest m

theorem runTrace_cons (net : Net) (lf : Option ImportMap) (dep : String × String)
    (rest : List (String × String)) (st : CDNState) :
    runTrace net lf (dep :: rest) st =
      ((dep.1, (resolveDependencyByName net dep.1 dep.2 lf true st).1) ::
         (runTrace net lf rest (resolveDependencyByName net dep.1 dep.2 lf true st).2).1,
       (runTrace net lf rest (resolveDependencyByName net dep.1 dep.2 lf true st).2).2) := rfl

theorem runTrace_length (net : Net) (lf : Option ImportMap)
    (deps : List (String × String)) : ∀ st : CDNState,
    (runTrace net lf deps st).1.length = deps.length := by
  induction deps with
  | nil => intro st; rfl
  | cons dep rest ih =>
      intro st
      rw [runTrace_cons]
      simp [ih]

theorem foldl_runTask_eq (net : Net) (lf : Option ImportMap)
    (deps : List (String × String)) :
    ∀ (im0 : List (String × JSString)) (er0 : Option ResolveError) (st : CDNState),
      deps.foldl (runTask net lf) (im0, er0, st) =
        (successMap (runTrace net lf deps st).1 im0,
         jsOr er0 (firstError (runTrace net lf deps st).1),
         (runTrace net lf deps st).2) := by
  induction deps with
  | nil =>
      intro im0 er0 st
      simp [runTrace, successMap, firstError, jsOr_none_right]
  | cons dep rest ih =>
      intro im0 er0 st
      rw [List.foldl_cons, runTrace_cons]
      cases hr : (resolveDependencyByName net dep.1 dep.2 lf true st).1 with
      | ok res =>
          have hstep : runTask net lf (im0, er0, st) dep =
              (alistPut im0 dep.1 res.pinnedUrl, er0,
               (resolveDependencyByName net dep.1 dep.2 lf true st).2) := by
            unfold runTask
            dsimp only
            rw [hr]
          rw [hstep, ih]
          simp [successMap, firstError, hr]
      | error e =>
          have hstep : runTask net lf (im0, er0, st) dep =
              (im0, jsOr er0 (some e),
               (resolveDependencyByName net dep.1 dep.2 lf true st).2) := by
            unfold runTask
            dsimp only
            rw [hr]
          rw [hstep, ih]
          simp [successMap, firstError, hr, jsOr_assoc, jsOr_some_left]

theorem lookup_alistPut_isSome (l : List (String × β)) (k s : String) (v : β) :
    ((alistPut l k v).lookup s).isSome = true ↔
      s = k ∨ (l.lookup s).isSome = true := by
  by_cases h : s = k
  · subst h
    simp [lookup_alistPut_self]
  · rw [lookup_alistPut_ne l k s v h]
    simp [h]

theorem successMap_lookup_isSome (outs : List (String × Except ResolveError ResolutionResult)) :
    ∀ (im0 : List (String × JSString)) (s : String),
      (((successMap outs im0).lookup s).isSome = true) ↔
        ((∃ r, (s, Except.ok r) ∈ outs) ∨ (im0.lookup s).isSome = true) := by
  induction outs with
  | nil => intro im0 s; simp [successMap]
  | cons o rest ih =>
      intro im0 s
      obtain ⟨os, orr⟩ := o
      cases orr with
      | ok res =>
          rw [show successMap ((os, Except.ok res) :: rest) im0 =
                successMap rest (alistPut im0 os res.pinnedUrl) from rfl, ih]
          rw [lookup_alistPut_isSome]
          constructor
          · rintro (⟨r, hr⟩ | hk | him)
            · exact Or.inl ⟨r, List.mem_cons_of_mem _ hr⟩
            · exact Or.inl ⟨res, by simp [hk]⟩
            · exact Or.inr him
          · rintro (⟨r, hr⟩ | him)
            · rcases List.mem_cons.mp hr with h1 | h1
              · refine Or.inr (Or.inl ?_)
                injection h1 with h2 h3
              · exact Or.inl ⟨r, h1⟩
            · exact Or.inr (Or.inr him)
      | error e =>
          rw [show successMap ((os, Except.error e) :: rest) im0 =
                successMap rest im0 from rfl, ih]
          constructor
          · rintro (⟨r, hr⟩ | him)
            · exact Or.inl ⟨r, List.mem_cons_of_mem _ hr⟩
            · exact Or.inr him
          · rintro (⟨r, hr⟩ | him)
            · rcases List.mem_cons.mp hr with h1 | h1
              · exact absurd h1 (by simp)
              · exact Or.inl ⟨r, h1⟩
            · exact Or.inr him

theorem successMap_keys_nodup (outs : List (String × Except ResolveError ResolutionResult)) :
    ∀ im0 : List (String × JSString),
      (im0.map Prod.fst).Nodup → ((successMap outs im0).map Prod.fst).Nodup := by
  induction outs with
  | nil => intro im0 h; exact h
  | cons o rest ih =>
      intro im0 h
      obtain ⟨os, orr⟩ := o
      cases orr with
      | ok res => exact ih _ (alistPut_keys_nodup im0 os res.pinnedUrl h)
      | error e => exact ih _ h

/-- C9: the batch generator attempts every specifier (the outcome trace has
one entry per dependency and the final state is the state after all of
them), fails with exactly the first error of the trace when one exists, and
on success returns a duplicate-free map containing an entry for a specifier
if and only if its resolution succeeded. -/
theorem c9_batch_first_error_wins (net : Net) (lf : Option ImportMap)
    (deps : List (String × String)) (st : CDNState) :
    (runTrace net lf deps st).1.length = deps.length ∧
    generateImportMap net deps lf st =
      ((match firstError (runTrace net lf deps st).1 with
        | some e => .error e
        | none => .ok { imports := successMap (runTrace net lf deps st).1 [] }),
       (runTrace net lf deps st).2) ∧
    (∀ m, (generateImportMap net deps lf st).1 = .ok m →
      (m.imports.map Prod.fst).Nodup ∧
      ∀ s, ((m.imports.lookup s).isSome = true ↔
        ∃ r, (s, Except.ok r) ∈ (runTrace net lf deps st).1)) := by
  have hgen : generateImportMap net deps lf st =
      ((match firstError (runTrace net lf deps st).1 with
        | some e => .error e
        | none => .ok { imports := successMap (runTrace net lf deps st).1 [] }),
       (runTrace net lf deps st).2) := by
    unfold generateImportMap
    rw [foldl_runTask_eq]
    cases hfe : firstError (runTrace net lf deps st).1 <;> simp [jsOr, hfe]
  refine ⟨runTrace_length net lf deps st, hgen, ?_⟩
  intro m hm
  rw [hgen] at hm
  dsimp only at hm
  cases hfe : firstError (runTrace net lf deps st).1 with
  | some e => rw [hfe] at hm; exact absurd hm (by simp)
  | none =>
      rw [hfe] at hm
      injection hm with hm2
      subst hm2
      constructor
      · exact successMap_keys_nodup _ [] (by simp)
      · intro s
        rw [successMap_lookup_isSome]
        simp [List.lookup]

/-- A CDN answering a bare 200: no headers at all. -/
def netBare : Net := fun _ _ => { statusCode := 200, headers := {}, body := "" }

/-- C10: a 200 lookup response with no x-import-status header at all is not
treated as a terminal success: the resolver takes the pending/poll path, so
it fails with the missing-poll-URL protocol error when x-import-url is also
falsy, and otherwise polls once and, when the poll answers 200, continues as
the no-retry attempt (the single permitted retry is consumed). -/
theorem c10_missing_status_pending (net : Net) (spec semver : String)
    (lf : Option ImportMap) (st : CDNState)
    (hpin : lockfilePin lf spec = none)
    (hval : semverValidationError spec semver = none)
    (h200 : (fetchCDNResource net (lookupUrl spec semver) st).1.statusCode = 200)
    (hnost : (fetchCDNResource net (lookupUrl spec semver) st).1.headers.xImportStatus = none) :
    (jsFalsy (fetchCDNResource net (lookupUrl spec semver) st).1.headers.xImportUrl = true →
      resolveDependencyByName net spec semver lf true st =
        (.error .missingImportUrl, (fetchCDNResource net (lookupUrl spec semver) st).2)) ∧
    (jsFalsy (fetchCDNResource net (lookupUrl spec semver) st).1.headers.xImportUrl = false →
      (fetchCDNResource net
          (jsTemplate (fetchCDNResource net (lookupUrl spec semver) st).1.headers.xImportUrl)
          (fetchCDNResource net (lookupUrl spec semver) st).2).1.statusCode = 200 →
      resolveDependencyByName net spec semver lf true st =
        resolveDependencyByNameNoRetry net spec semver lf
          (fetchCDNResource net
            (jsTemplate (fetchCDNResource net (lookupUrl spec semver) st).1.headers.xImportUrl)
            (fetchCDNResource net (lookupUrl spec semver) st).2).2) := by
  constructor
  · intro hfal
    unfold resolveDependencyByName
    dsimp only
    rw [hpin]
    rw [hval]
    simp only [h200, hnost, hfal, ne_eq]
    simp
  · intro hfal hq
    unfold resolveDependencyByName
    dsimp only
    rw [hpin]
    rw [hval]
    simp only [h200, hnost, hfal, hq, ne_eq]
    simp

/-- Witness for C10: a bare 200 response (no headers) makes the resolver
fail with the missing-poll-URL protocol error rather than succeed. -/
theorem c10_missing_status_pending_witness :
    (fetchCDNResource netBare (lookupUrl "pkg" "1.0.0") {}).1.statusCode = 200 ∧
    (fetchCDNResource netBare (lookupUrl "pkg" "1.0.0") {}).1.headers.xImportStatus = none ∧
    resolveDependencyByName netBare "pkg" "1.0.0" none true {} =
      (.error .missingImportUrl, (fetchCDNResource netBare (lookupUrl "pkg" "1.0.0") {}).2) :=
  ⟨by decide, by decide,
   (c10_missing_status_pending netBare "pkg" "1.0.0" none {}
     (by decide) (by decide) (by decide) (by decide)).1 (by decide)⟩


/-- A CDN that reports SUCCESS on every request. -/
def netAlwaysSuccess : Net := fun _ _ => successResponse

/-- Witness for C9, mirroring the batch of the spec: with specifiers a
(valid), b (invalid semver "1 2") and c (valid), all three are attempted,
the batch fails with the validation error of b, and the success-only batch
[a, c] returns a duplicate-free map with an entry for the resolved
specifier a. -/
theorem c9_batch_first_error_wins_witness :
    (runTrace netAlwaysSuccess none
      [("a", "1.0.0"), ("b", "1 2"), ("c", "2.0.0")] {}).1.length = 3 ∧
    generateImportMap netAlwaysSuccess
        [("a", "1.0.0"), ("b", "1 2"), ("c", "2.0.0")] none {} =
      (.error (.complexSemver "b" "1 2"),
       (runTrace netAlwaysSuccess none
         [("a", "1.0.0"), ("b", "1 2"), ("c", "2.0.0")] {}).2) ∧
    (([("a", some "https://cdn.pika.dev/-/pkg@v1.0.0.js"),
       ("c", some "https://cdn.pika.dev/-/pkg@v1.0.0.js")] :
        List (String × JSString)).map Prod.fst).Nodup ∧
    (([("a", some "https://cdn.pika.dev/-/pkg@v1.0.0.js"),
       ("c", some "https://cdn.pika.dev/-/pkg@v1.0.0.js")] :
        List (String × JSString)).lookup "a").isSome = true := by
  have h1 := c9_batch_first_error_wins netAlwaysSuccess none
    [("a", "1.0.0"), ("b", "1 2"), ("c", "2.0.0")] {}
  have h2 := c9_batch_first_error_wins netAlwaysSuccess none
    [("a", "1.0.0"), ("c", "2.0.0")] {}
  have hm : (generateImportMap netAlwaysSuccess
      [("a", "1.0.0"), ("c", "2.0.0")] none {}).1 =
      .ok { imports := [("a", some "https://cdn.pika.dev/-/pkg@v1.0.0.js"),
                        ("c", some "https://cdn.pika.dev/-/pkg@v1.0.0.js")] } := by decide
  have h3 := h2.2.2 _ hm
  refine ⟨h1.1, h1.2.1.trans (by decide), h3.1, ?_⟩
  exact (h3.2 "a").mpr
    ⟨{ body := "export default 1;",
       pinnedUrl := some "https://cdn.pika.dev/-/pkg@v1.0.0.js" }, by decide⟩

end Snowpack
